import Mathlib

/-!
Verification development for the crocket trading bot.

Shallow embedding of the order-execution manager
(`crocket/manager_helper.py`, `crocket/bittrex/BittrexOrder.py`,
`crocket/bittrex/bittrex2.py`) and of the market-history aggregator
(`crocket/run_crocket.py`).

Conventions of the embedding:
* Python `Decimal` values are rationals (`ℚ`); `Decimal.quantize` with the
  8-digit quantizer `BittrexConstants.DIGITS` and the default
  `ROUND_HALF_EVEN` rounding is `quantize8` below.
* Exchange/network responses are passed in as explicit arguments; a raised
  and caught `ConnectionError` is an `Option.none` response.
* Wall-clock datetimes are modelled as integer timestamps; string
  formatting of times is not modelled (no claim depends on it).
-/

/-- Banker's rounding (round half to even) of a rational to an integer.
This is the default `ROUND_HALF_EVEN` rounding mode of Python `Decimal`. -/
def roundHalfEven (x : ℚ) : ℤ :=
  if x - ⌊x⌋ < 1/2 then ⌊x⌋
  else if 1/2 < x - ⌊x⌋ then ⌊x⌋ + 1
  else if ⌊x⌋ % 2 = 0 then ⌊x⌋ else ⌊x⌋ + 1

/-- `Decimal.quantize(BittrexConstants.DIGITS)`: round to 8 fractional
digits, half to even.  `BittrexConstants` is not under `src/`; the spec fixes
the quantization scale at 8 fractional digits. -/
def quantize8 (x : ℚ) : ℚ :=
  (roundHalfEven (x * 100000000) : ℚ) / 100000000

/-!
## Pricing (`crocket/manager_helper.py`)

`buy_above_bid` (lines 61-71) and `sell_below_ask` (lines 126-136) compute
the submitted limit price from the live ticker.  The helpers below are the
exact pricing expressions of those functions.  For the default
`percent = 5`, Python's `Decimal(str(percent / 100))` is exactly
`Decimal('0.05') = 1/20 = percent / 100`, so the float round-trip is exact
and `percent / 100` in `ℚ` is faithful.
-/

/-- Buy target price of `buy_above_bid`:
`price_buffer = (ask - bid) * percent/100`;
`buy_price = (bid + price_buffer).quantize(DIGITS)`;
fallback to `bid` when `buy_price > ask`. -/
def buyPrice (bid ask percent : ℚ) : ℚ :=
  let price_buffer := (ask - bid) * (percent / 100)
  let buy_price := quantize8 (bid + price_buffer)
  if buy_price > ask then bid else buy_price

/-- Sell target price of `sell_below_ask`:
`price_buffer = (ask - bid) * percent/100`;
`sell_price = (ask - price_buffer).quantize(DIGITS)`;
fallback to `ask` when `sell_price < bid`. -/
def sellPrice (bid ask percent : ℚ) : ℚ :=
  let price_buffer := (ask - bid) * (percent / 100)
  let sell_price := quantize8 (ask - price_buffer)
  if sell_price < bid then ask else sell_price

/-!
## Order data model (`crocket/bittrex/BittrexOrder.py`)

`utilities.constants` is not under `src/`.  Modelled from the spec:
`OrderStatus` has the four lifecycle names of §3 (UNEXECUTED, EXECUTED,
COMPLETED, SKIPPED); `OrderType.BUY.name` and `OrderType.SELL.name` are the
strings stored in `BittrexOrder.type`; `BittrexConstants.DIGITS` is the
8-fractional-digit quantizer (`quantize8`).
-/

inductive OrderStatus
  | UNEXECUTED
  | EXECUTED
  | COMPLETED
  | SKIPPED
deriving DecidableEq

/-- The `BittrexOrder` record (`BittrexOrder.__init__`).  The wall-clock
fields `open_time` / `closed_time` are omitted from the embedding (no claim
concerns them). -/
structure BittrexOrder where
  market : String := ""
  type : String := ""
  target_price : ℚ := 0
  target_quantity : ℚ := 0
  base_quantity : ℚ := 0
  current_quantity : ℚ := 0
  status : OrderStatus := OrderStatus.UNEXECUTED
  uuid : Option String := none
  actual_price : ℚ := 0
  cost : ℚ := 0
deriving DecidableEq

/-- One completed-order record returned by the exchange for `get_order`
(the dict shown in `add_completed_order`'s docstring; non-claim fields and
the `Closed` timestamp omitted). -/
structure OrderRecord where
  PricePerUnit : ℚ := 0
  Price : ℚ := 0
  CommissionPaid : ℚ := 0
  Quantity : ℚ := 0
  QuantityRemaining : ℚ := 0
  «Type» : String := ""
deriving DecidableEq

/-- `BittrexOrder.add_completed_order` (BittrexOrder.py lines 86-106):
status becomes COMPLETED, `actual_price` is the quantized per-unit price;
for `LIMIT_BUY` both `cost` and `current_quantity` are set; for
`LIMIT_SELL` only `cost` is set — the sell branch never assigns
`current_quantity`. -/
def BittrexOrder.add_completed_order (o : BittrexOrder) (order : OrderRecord) :
    BittrexOrder :=
  let o := { o with status := OrderStatus.COMPLETED,
                    actual_price := quantize8 order.PricePerUnit }
  if order.«Type» = "LIMIT_BUY" then
    { o with cost := quantize8 (order.Price + order.CommissionPaid),
             current_quantity := quantize8 (order.Quantity - order.QuantityRemaining) }
  else if order.«Type» = "LIMIT_SELL" then
    { o with cost := quantize8 (order.Price - order.CommissionPaid) }
  else o

/-!
## Wallet ledger

The wallet class is not under `src/` (only its call sites are).  Modelled
from the spec: the Wallet Ledger is a mutable per-asset balance keyed by
market symbol, updated additively (§2, §6: `getBalance`, `applyDelta`);
§8 fixes the sign convention: after a reconciled buy the asset balance
gains the quantity delta and the quote (BTC) balance loses the cost delta.
-/

def Wallet : Type := String → ℚ

/-- Modelled from the spec: `wallet.get_quantity(asset_or_market)` reads the
ledger balance for that key. -/
def Wallet.get_quantity (w : Wallet) (market : String) : ℚ := w market

/-- Modelled from the spec: `wallet.update_wallet(market, q, c)` adds `q` to
the market's asset balance and removes `c` from the BTC (quote) balance. -/
def Wallet.update_wallet (w : Wallet) (market : String) (q c : ℚ) : Wallet :=
  fun s => if s = market then w s + q else if s = "BTC" then w s - c else w s

/-- `get_order_and_update_wallet` (manager_helper.py lines 20-34).  The
source reads `order.total`, but `BittrexOrder` defines no attribute
`total` (its realized-cost attribute is named `cost`), so the Python
attribute access raises `AttributeError`; the embedding surfaces that as
`Except.error`.  The `some` branch spells out what the code would do with
a value for `order.total`. -/
def BittrexOrder.attr_total (_ : BittrexOrder) : Option ℚ := none

def get_order_and_update_wallet (order : BittrexOrder) (wallet : Wallet)
    (order_result : OrderRecord) : Except String (BittrexOrder × Wallet) :=
  let order := order.add_completed_order order_result
  match order.attr_total with
  | none => Except.error "AttributeError: BittrexOrder object has no attribute total"
  | some total =>
    if order.type = "BUY" then
      Except.ok (order, wallet.update_wallet order.market order.current_quantity total)
    else
      Except.ok (order, wallet.update_wallet order.market
        (-1 * order.current_quantity) (-1 * total))

/-!
## Submission helpers (`crocket/manager_helper.py`)

`buy_above_bid` / `sell_below_ask` with the exchange responses passed in
explicitly and the sequence of exchange API calls returned as a trace.
`tickerResp = none` stands for the caught `ConnectionError`/`ValueError` of
`get_ticker_or_else`; `limitResp = none` for a raised `ConnectionError` of
`buy_limit`/`sell_limit` (caught by the surrounding handler).
-/

inductive ApiCall
  | getTicker (market : String)
  | buyLimit (market : String) (quantity rate : ℚ)
  | sellLimit (market : String) (quantity rate : ℚ)
deriving DecidableEq

structure Ticker where
  Bid : ℚ
  Ask : ℚ
deriving DecidableEq

/-- A `buy_limit` / `sell_limit` response envelope: the `success` flag and
the `result.uuid`. -/
structure LimitResponse where
  success : Bool
  uuid : String
deriving DecidableEq

/-- `buy_above_bid` (manager_helper.py lines 37-98).  Returns the Python
return value, the mutated order, and the trace of exchange calls made. -/
def buy_above_bid (market : String) (order : BittrexOrder) (wallet : Wallet)
    (tickerResp : Option Ticker) (limitResp : Option LimitResponse)
    (percent : ℚ := 5) : Bool × BittrexOrder × List ApiCall :=
  match tickerResp with
  | none => (false, order, [ApiCall.getTicker market])
  | some ticker =>
    let buy_price := buyPrice ticker.Bid ticker.Ask percent
    let order := { order with target_price := buy_price }
    if wallet.get_quantity "BTC" < order.base_quantity then
      (false, order, [ApiCall.getTicker market])
    else
      let calls := [ApiCall.getTicker market,
                    ApiCall.buyLimit market order.target_quantity order.target_price]
      match limitResp with
      | none => (false, order, calls)
      | some resp =>
        if resp.success then
          (true, { order with uuid := some resp.uuid,
                              status := OrderStatus.EXECUTED }, calls)
        else
          (false, order, calls)

/-- `sell_below_ask` (manager_helper.py lines 101-164).  The quantity
submitted with the sell order is `wallet.get_quantity(market)`, not the
order's `target_quantity`. -/
def sell_below_ask (market : String) (order : BittrexOrder) (wallet : Wallet)
    (tickerResp : Option Ticker) (limitResp : Option LimitResponse)
    (percent : ℚ := 5) : Bool × BittrexOrder × List ApiCall :=
  match tickerResp with
  | none => (false, order, [ApiCall.getTicker market])
  | some ticker =>
    let sell_price := sellPrice ticker.Bid ticker.Ask percent
    let order := { order with target_price := sell_price }
    if wallet.get_quantity market = 0 then
      (false, order, [ApiCall.getTicker market])
    else
      let calls := [ApiCall.getTicker market,
                    ApiCall.sellLimit market (wallet.get_quantity market) order.target_price]
      match limitResp with
      | none => (false, order, calls)
      | some resp =>
        if resp.success then
          (true, { order with uuid := some resp.uuid,
                              status := OrderStatus.EXECUTED }, calls)
        else
          (false, order, calls)

/-!
## Retry wrappers (`crocket/bittrex/bittrex2.py`)

`buy_or_else` (lines 811-891) and `sell_or_else` (lines 752-809).  The
exchange is modelled by three response oracles indexed by the attempt
number: `submitOk i` is the `success` flag of the `i`-th `buy_limit` /
`sell_limit` call, `orderOk j` is the `j`-th `get_order` poll (`some data`
on success), `cancelOk k` the `k`-th `cancel` call.  A Python
`RuntimeError` raise is recorded in `fatal`; the returned `response` dict
is the `success` / `result` fields.  `polled` records the order data
obtained by a successful status poll and `cancelCalls` counts the `cancel`
API calls issued.
-/

/-- `get_order` result fields used by `buy_or_else`. -/
structure OrderData where
  Quantity : ℚ := 0
  QuantityRemaining : ℚ := 0
deriving DecidableEq

structure OrElseRun where
  fatal : Option String := none
  success : Bool := false
  result : Option OrderData := none
  polled : Option OrderData := none
  cancelCalls : ℕ := 0
deriving DecidableEq

/-- The `for kk in range(retry)` cancel loop of `buy_or_else`
(lines 856-872): first success breaks with `response.success = True`;
failing the last attempt raises.  Returns (success, raised, calls made). -/
def cancelLoop (cancelOk : ℕ → Bool) (retry : ℕ) :
    List ℕ → Bool × Option String × ℕ
  | [] => (false, none, 0)
  | kk :: rest =>
    if cancelOk kk then (true, none, 1)
    else if kk = retry - 1 then
      (false, some "Tradebot: failed to cancel remaining order.", 1)
    else
      ((cancelLoop cancelOk retry rest).1, (cancelLoop cancelOk retry rest).2.1,
       (cancelLoop cancelOk retry rest).2.2 + 1)

/-- The `for jj in range(retry)` status-poll loop of `buy_or_else`
(lines 836-881), including the partial-fill cancellation branch. -/
def orderLoopBuy (orderOk : ℕ → Option OrderData) (cancelOk : ℕ → Bool)
    (retry : ℕ) : List ℕ → OrElseRun
  | [] => {}
  | jj :: rest =>
    match orderOk jj with
    | some od =>
      if 0 < od.QuantityRemaining then
        let c := cancelLoop cancelOk retry (List.range retry)
        { success := c.1, fatal := c.2.1, result := some od,
          polled := some od, cancelCalls := c.2.2 }
      else
        { success := true, result := some od, polled := some od }
    | none =>
      if jj = retry - 1 then
        { fatal := some "Tradebot: failed to get buy order metadata." }
      else orderLoopBuy orderOk cancelOk retry rest

/-- The `for ii in range(retry)` submission loop of `buy_or_else`
(lines 825-889).  Note: when the last submission attempt fails the code
only logs and the loop ends — no raise — so the default
`{success := false, result := none}` response is returned. -/
def buyAttempts (submitOk : ℕ → Bool) (orderOk : ℕ → Option OrderData)
    (cancelOk : ℕ → Bool) (retry : ℕ) : List ℕ → OrElseRun
  | [] => {}
  | ii :: rest =>
    if submitOk ii then orderLoopBuy orderOk cancelOk retry (List.range retry)
    else buyAttempts submitOk orderOk cancelOk retry rest

/-- `Bittrex.buy_or_else` (bittrex2.py lines 811-891). -/
def buy_or_else (submitOk : ℕ → Bool) (orderOk : ℕ → Option OrderData)
    (cancelOk : ℕ → Bool) (retry : ℕ := 3) : OrElseRun :=
  buyAttempts submitOk orderOk cancelOk retry (List.range retry)

/-- The status-poll loop of `sell_or_else` (lines 778-797): no cancellation
logic; exhausting the polls raises. -/
def orderLoopSell (orderOk : ℕ → Option OrderData) (retry : ℕ) :
    List ℕ → OrElseRun
  | [] => {}
  | jj :: rest =>
    match orderOk jj with
    | some od => { success := true, result := some od, polled := some od }
    | none =>
      if jj = retry - 1 then
        { fatal := some "Error: Get sell order metadata max API retry limit reached." }
      else orderLoopSell orderOk retry rest

/-- The submission loop of `sell_or_else` (lines 765-807).  Unlike the buy
side, failing the last submission attempt raises `RuntimeError`
(line 805). -/
def sellAttempts (submitOk : ℕ → Bool) (orderOk : ℕ → Option OrderData)
    (retry : ℕ) : List ℕ → OrElseRun
  | [] => {}
  | ii :: rest =>
    if submitOk ii then orderLoopSell orderOk retry (List.range retry)
    else if ii = retry - 1 then
      { fatal := some "Error: Sell order max API retry limit reached." }
    else sellAttempts submitOk orderOk retry rest

/-- `Bittrex.sell_or_else` (bittrex2.py lines 752-809). -/
def sell_or_else (submitOk : ℕ → Bool) (orderOk : ℕ → Option OrderData)
    (retry : ℕ := 3) : OrElseRun :=
  sellAttempts submitOk orderOk retry (List.range retry)

/-- Modelled from the spec: the tradebot caller of `buy_or_else` /
`sell_or_else` is not under `src/`; per §4.1 step 2 it records the order
identifier and sets status EXECUTED exactly on submission success, and
leaves the order untouched otherwise. -/
def record_submission (o : BittrexOrder) (r : OrElseRun) : BittrexOrder :=
  if r.success then { o with status := OrderStatus.EXECUTED } else o

/-!
## Market history aggregator (`crocket/run_crocket.py`)

Trade-tape entries carry the fields the poll loop reads: `Id`,
`TimeStamp` (modelled as an integer timestamp in seconds, so that Python's
`(a - b).total_seconds() > interval` is `interval < a - b`), `OrderType`,
`Price` and `Total`.  The persisted SQL row is the `metrics` dict
(`volume`, `buy_order`, `sell_order`, `price`, `price_volume_weighted`,
`time`); the formatted time string is modelled as the raw start
timestamp.
-/

structure TradeEntry where
  Id : ℕ
  TimeStamp : ℤ
  OrderType : String
  Price : ℚ
  Total : ℚ
deriving DecidableEq

structure Metrics where
  volume : ℚ
  buy_order : ℕ
  sell_order : ℕ
  price : ℚ
  price_volume_weighted : ℚ
  time : ℤ
deriving DecidableEq

/-- Python `Decimal` division, which raises on a zero divisor. -/
def divD (a b : ℚ) : Except String ℚ :=
  if b = 0 then Except.error "DivisionByZero" else Except.ok (a / b)

/-- `calculate_metrics` (run_crocket.py lines 75-112).  The guard
`if data and isinstance(data[0], dict)` leaves every numeric field at its
initialized `0` on an empty list, so no division is performed there. -/
def calculate_metrics (data : List TradeEntry) (start_datetime : ℤ) :
    Except String Metrics :=
  match data with
  | [] =>
    Except.ok { volume := 0, buy_order := 0, sell_order := 0, price := 0,
                price_volume_weighted := 0, time := start_datetime }
  | _ =>
    let p := data.map (·.Price)
    let v := data.map (·.Total)
    let o := data.map (·.OrderType)
    let volume := v.sum
    let buy_order := (o.filter (fun x => x = "BUY")).length
    let sell_order := o.length - buy_order
    match divD ((p.map quantize8).sum) (p.length : ℚ) with
    | Except.error e => Except.error e
    | Except.ok m =>
      match divD (((p.zip v).map (fun xy => quantize8 xy.1 * xy.2)).sum) v.sum with
      | Except.error e => Except.error e
      | Except.ok w =>
        Except.ok { volume := volume, buy_order := buy_order,
                    sell_order := sell_order, price := quantize8 m,
                    price_volume_weighted := quantize8 w,
                    time := start_datetime }

/-- `get_interval_index` (run_crocket.py lines 115-128). -/
def get_interval_index (entries : List TradeEntry) (target_datetime : ℤ)
    (interval : ℤ) : ℕ × ℕ :=
  let timestamp_list := entries.map (·.TimeStamp)
  let stop_index := (timestamp_list.filter (fun x => decide (target_datetime < x))).length
  let start_index := (timestamp_list.filter (fun x => decide (interval < x - target_datetime))).length
  (start_index, stop_index)

/-- Python list slice `l[start:stop]`. -/
def pySlice {α : Type} (l : List α) (start stop : ℕ) : List α :=
  (l.take stop).drop start

/-- The merge of one freshly fetched page into the working window
(run_crocket.py lines 241-246): locate the newest held identifier in the
page; everything strictly before it is new and is prepended.  `none` is the
`ValueError` raised by `.index` when the identifier is not found (handled
by the except branch of the loop), or the `IndexError` on an empty working
list. -/
def mergeStep (working_list market_history : List TradeEntry) :
    Option (List TradeEntry) :=
  match working_list.head? with
  | none => none
  | some first =>
    match market_history.findIdx? (fun x => decide (x.Id = first.Id)) with
    | none => none
    | some index => some (market_history.take index ++ working_list)

/-- `n` successive merges of the same fetched page. -/
def repeatMerge (market_history : List TradeEntry) :
    ℕ → List TradeEntry → Option (List TradeEntry)
  | 0, w => some w
  | n + 1, w =>
    match mergeStep w market_history with
    | none => none
    | some w' => repeatMerge market_history n w'

/-- The aggregator's per-poll state: the working window, the open interval's
start, the stale-interval counter `constant`, and the last computed
`metrics` dict. -/
structure LoopState where
  working : List TradeEntry
  current : ℤ
  constant : ℕ
  metrics : Metrics
deriving DecidableEq

/-- One iteration of the polling loop of `run_crocket.py` (lines 240-297)
on a freshly fetched page, returning the next state and the row inserted
into the database that cycle (`db.insert_query` at line 297 runs on every
iteration).  `none` models a crash (empty working list, or a raised
division error).  The final branch is the `except ValueError` handler
(lines 284-294): the whole page is prepended and metrics are recomputed
over the entire merged list. -/
def loopStep (st : LoopState) (market_history : List TradeEntry)
    (interval : ℤ) : Option (LoopState × Metrics) :=
  match st.working.head? with
  | none => none
  | some first =>
    match market_history.findIdx? (fun x => decide (x.Id = first.Id)) with
    | some index =>
      let working_list := market_history.take index ++ st.working
      match working_list.head? with
      | none => none
      | some newest =>
        let latest_datetime := newest.TimeStamp
        if interval < latest_datetime - st.current then
          let se := get_interval_index working_list st.current interval
          match calculate_metrics (pySlice working_list se.1 se.2) st.current with
          | Except.error _ => none
          | Except.ok metrics =>
            some ({ working := working_list.take se.1,
                    current := st.current + interval,
                    constant := 0, metrics := metrics }, metrics)
        else if 2 < st.constant then
          let se := get_interval_index working_list st.current interval
          match calculate_metrics (pySlice working_list se.1 se.2) st.current with
          | Except.error _ => none
          | Except.ok new_metrics =>
            let metrics : Metrics :=
              { volume := new_metrics.volume,
                buy_order := new_metrics.buy_order,
                sell_order := new_metrics.sell_order,
                price := st.metrics.price,
                price_volume_weighted := st.metrics.price_volume_weighted,
                time := new_metrics.time }
            some ({ working := working_list.take se.1,
                    current := st.current + interval,
                    constant := st.constant, metrics := metrics }, metrics)
        else
          some ({ st with working := working_list,
                          constant := st.constant + 1 }, st.metrics)
    | none =>
      let working_list := market_history ++ st.working
      match calculate_metrics working_list st.current with
      | Except.error _ => none
      | Except.ok metrics =>
        some ({ working := working_list, current := st.current + interval,
                constant := st.constant, metrics := metrics }, metrics)


/-!
## Concrete sample data used by counterexamples and witnesses
-/

/-- A completed LIMIT_SELL exchange record (quantities from the sample
response in `add_completed_order`'s docstring, with exact decimal values). -/
def sampleSellRecord : OrderRecord :=
  { PricePerUnit := 2, Price := 2732, CommissionPaid := 1,
    Quantity := 1366, QuantityRemaining := 0, «Type» := "LIMIT_SELL" }

/-- A sell order awaiting reconciliation. -/
def sampleSellOrder : BittrexOrder :=
  { market := "BTC-RDD", type := "SELL", target_quantity := 1366,
    status := OrderStatus.EXECUTED, uuid := some "u1" }

/-- An all-zero wallet. -/
def zeroWallet : Wallet := fun _ => 0

/-- Trade-tape entry inside the open interval (timestamp 30 of a 60-second
interval starting at 0). -/
def e1 : TradeEntry := { Id := 1, TimeStamp := 30, OrderType := "BUY", Price := 100, Total := 5 }

/-- A prior emission carried in the metrics dict. -/
def m0 : Metrics :=
  { volume := 7, buy_order := 1, sell_order := 0, price := 100,
    price_volume_weighted := 100, time := -60 }

/-- Aggregator state with the stale counter already past the threshold. -/
def staleState : LoopState := { working := [e1], current := 0, constant := 3, metrics := m0 }

/-- Aggregator state with a fresh stale counter. -/
def freshState : LoopState := { working := [e1], current := 0, constant := 0, metrics := m0 }

/-!
## Helper lemmas: rounding and quantization
-/

theorem floor_le_roundHalfEven (x : ℚ) : ⌊x⌋ ≤ roundHalfEven x := by
  unfold roundHalfEven
  split_ifs <;> omega

theorem roundHalfEven_le_floor_add_one (x : ℚ) : roundHalfEven x ≤ ⌊x⌋ + 1 := by
  unfold roundHalfEven
  split_ifs <;> omega

theorem roundHalfEven_intCast (n : ℤ) : roundHalfEven (n : ℚ) = n := by
  unfold roundHalfEven
  rw [Int.floor_intCast]
  have h : (n : ℚ) - n = 0 := by ring
  rw [h]
  norm_num

theorem roundHalfEven_mono {x y : ℚ} (h : x ≤ y) :
    roundHalfEven x ≤ roundHalfEven y := by
  rcases lt_or_le ⌊x⌋ ⌊y⌋ with hf | hf
  · calc roundHalfEven x ≤ ⌊x⌋ + 1 := roundHalfEven_le_floor_add_one x
      _ ≤ ⌊y⌋ := by omega
      _ ≤ roundHalfEven y := floor_le_roundHalfEven y
  · have hxy : ⌊x⌋ = ⌊y⌋ := le_antisymm (Int.floor_le_floor h) hf
    unfold roundHalfEven
    rw [hxy]
    split_ifs <;> first | omega | linarith

theorem quantize8_mono {x y : ℚ} (h : x ≤ y) : quantize8 x ≤ quantize8 y := by
  unfold quantize8
  have hr : roundHalfEven (x * 100000000) ≤ roundHalfEven (y * 100000000) :=
    roundHalfEven_mono (by linarith)
  have : ((roundHalfEven (x * 100000000) : ℤ) : ℚ) ≤
      ((roundHalfEven (y * 100000000) : ℤ) : ℚ) := by exact_mod_cast hr
  linarith

/-- `quantize8` is the identity on values already expressible with 8
fractional digits. -/
theorem quantize8_fixed (b : ℤ) : quantize8 ((b : ℚ) / 100000000) = (b : ℚ) / 100000000 := by
  unfold quantize8
  have h : ((b : ℚ) / 100000000) * 100000000 = (b : ℚ) := by
    field_simp
  rw [h, roundHalfEven_intCast]

/-- Evaluation rule: when `x` scaled by `10^8` is the integer `b`,
quantization leaves `x` unchanged (as `b / 10^8`). -/
theorem quantize8_eq (x : ℚ) (b : ℤ) (h : x * 100000000 = (b : ℚ)) :
    quantize8 x = (b : ℚ) / 100000000 := by
  unfold quantize8
  rw [h, roundHalfEven_intCast]

/-- Evaluation rule: when `x * 10^8` lies in `[n, n + 1/2)`, the half-even
rounding truncates down to `n`. -/
theorem quantize8_eq_down (x : ℚ) (n : ℤ) (h1 : (n : ℚ) ≤ x * 100000000)
    (h2 : x * 100000000 < (n : ℚ) + 1/2) :
    quantize8 x = (n : ℚ) / 100000000 := by
  have hfl : ⌊x * 100000000⌋ = n := by
    rw [Int.floor_eq_iff]
    constructor
    · exact h1
    · have : ((n : ℚ) + 1/2) < n + 1 := by norm_num
      linarith
  unfold quantize8 roundHalfEven
  rw [hfl]
  have hlt : x * 100000000 - (n : ℚ) < 1/2 := by linarith
  rw [if_pos hlt]

/-- Evaluation rule: an exact half above an odd integer rounds up. -/
theorem quantize8_half_odd (x : ℚ) (n : ℤ) (h : x * 100000000 = (n : ℚ) + 1/2)
    (hodd : n % 2 = 1) :
    quantize8 x = ((n + 1 : ℤ) : ℚ) / 100000000 := by
  have hfl : ⌊x * 100000000⌋ = n := by
    rw [Int.floor_eq_iff]
    constructor
    · rw [h]; norm_num
    · rw [h]; norm_num
  unfold quantize8 roundHalfEven
  rw [hfl, h]
  have h1 : ¬((n : ℚ) + 1/2 - n < 1/2) := by norm_num
  have h2 : ¬(1/2 < (n : ℚ) + 1/2 - n) := by norm_num
  have h3 : ¬(n % 2 = 0) := by omega
  rw [if_neg h1, if_neg h2, if_neg h3]

/-!
## C1 — pricing stays within the spread
-/

/-- C1, as stated, is false: for tickers whose bid/ask need more than
8 fractional digits, quantization can push the buy price below the bid
(bid = ask = 1e-9 gives buy price 0) and the sell price above the ask
(bid = 1.12e-8, ask = 1.52e-8 gives sell price 2e-8 > ask, since
1.5e-8 rounds half-to-even up and the fallback only guards the bid side). -/
theorem c1_counterexample :
    buyPrice ((1 : ℚ)/1000000000) ((1 : ℚ)/1000000000) 5 < (1 : ℚ)/1000000000 ∧
    (152 : ℚ)/10000000000 < sellPrice ((112 : ℚ)/10000000000) ((152 : ℚ)/10000000000) 5 := by
  have hb : buyPrice ((1 : ℚ)/1000000000) ((1 : ℚ)/1000000000) 5 = 0 := by
    simp only [buyPrice]
    have h : (1/1000000000 : ℚ) + (1/1000000000 - 1/1000000000) * (5/100) = 1/1000000000 := by
      norm_num
    rw [h, quantize8_eq_down (1/1000000000) 0 (by norm_num) (by norm_num)]
    norm_num
  have hs : sellPrice ((112 : ℚ)/10000000000) ((152 : ℚ)/10000000000) 5 = 2/100000000 := by
    simp only [sellPrice]
    have h : (152/10000000000 : ℚ) - (152/10000000000 - 112/10000000000) * (5/100)
        = 15/1000000000 := by norm_num
    rw [h, quantize8_half_odd (15/1000000000) 1 (by norm_num) (by norm_num)]
    norm_num
  rw [hb, hs]
  norm_num

/-- C1 (amended): for every ticker whose bid and ask are exact multiples of
the 8-digit quantization unit, with `0 ≤ bid ≤ ask` and the default buffer
percent of 5, the buy target price computed by `buy_above_bid` and the sell
target price computed by `sell_below_ask` both lie in `[bid, ask]`. -/
theorem c1_prices_within_spread (bid ask : ℚ) (b a : ℤ)
    (hb : bid = (b : ℚ) / 100000000) (ha : ask = (a : ℚ) / 100000000)
    (_h0 : 0 ≤ bid) (hba : bid ≤ ask) :
    bid ≤ buyPrice bid ask 5 ∧ buyPrice bid ask 5 ≤ ask ∧
    bid ≤ sellPrice bid ask 5 ∧ sellPrice bid ask 5 ≤ ask := by
  have hqb : quantize8 bid = bid := by rw [hb]; exact quantize8_fixed b
  have hqa : quantize8 ask = ask := by rw [ha]; exact quantize8_fixed a
  have hbuf : 0 ≤ (ask - bid) * (5 / 100 : ℚ) :=
    mul_nonneg (by linarith) (by norm_num)
  refine ⟨?_, ?_, ?_, ?_⟩
  · simp only [buyPrice]
    split_ifs with h
    · exact le_refl bid
    · calc bid = quantize8 bid := hqb.symm
        _ ≤ quantize8 (bid + (ask - bid) * (5 / 100)) := quantize8_mono (by linarith)
  · simp only [buyPrice]
    split_ifs with h
    · exact hba
    · exact not_lt.mp h
  · simp only [sellPrice]
    split_ifs with h
    · exact hba
    · exact not_lt.mp h
  · simp only [sellPrice]
    split_ifs with h
    · exact le_refl ask
    · calc quantize8 (ask - (ask - bid) * (5 / 100))
          ≤ quantize8 ask := quantize8_mono (by linarith)
        _ = ask := hqa

/-- Witness for C1: the amended theorem instantiated at
`bid = 1e-8`, `ask = 3e-8`. -/
theorem c1_witness :
    (1 : ℚ)/100000000 ≤ buyPrice ((1 : ℚ)/100000000) ((3 : ℚ)/100000000) 5 ∧
    buyPrice ((1 : ℚ)/100000000) ((3 : ℚ)/100000000) 5 ≤ (3 : ℚ)/100000000 ∧
    (1 : ℚ)/100000000 ≤ sellPrice ((1 : ℚ)/100000000) ((3 : ℚ)/100000000) 5 ∧
    sellPrice ((1 : ℚ)/100000000) ((3 : ℚ)/100000000) 5 ≤ (3 : ℚ)/100000000 :=
  c1_prices_within_spread ((1 : ℚ)/100000000) ((3 : ℚ)/100000000) 1 3
    (by norm_num) (by norm_num) (by norm_num) (by norm_num)

/-!
## C2 — reconciliation and the wallet update
-/

/-- C2 fails on the code: at reconciliation of a completed LIMIT_SELL
record with filled quantity 1366, `add_completed_order` never assigns
`current_quantity` (it stays at its initial 0, not the filled quantity),
and `get_order_and_update_wallet` reads `order.total`, an attribute
`BittrexOrder` does not define (the realized cost is stored in `cost`), so
the wallet update raises `AttributeError` instead of applying any delta.
The `cost` computation itself does follow the claim (price minus
commission for a sell). -/
theorem c2_code_bug_eval :
    get_order_and_update_wallet sampleSellOrder zeroWallet sampleSellRecord =
      Except.error "AttributeError: BittrexOrder object has no attribute total" ∧
    (sampleSellOrder.add_completed_order sampleSellRecord).current_quantity = 0 ∧
    sampleSellRecord.Quantity - sampleSellRecord.QuantityRemaining = 1366 ∧
    (sampleSellOrder.add_completed_order sampleSellRecord).cost = 2731 := by
  have hq : quantize8 (2731 : ℚ) = ((273100000000 : ℤ) : ℚ) / 100000000 :=
    quantize8_eq (2731 : ℚ) 273100000000 (by norm_num)
  refine ⟨rfl, ?_, by norm_num [sampleSellRecord], ?_⟩
  · simp [BittrexOrder.add_completed_order, sampleSellOrder, sampleSellRecord]
  · simp only [BittrexOrder.add_completed_order, sampleSellOrder, sampleSellRecord]
    norm_num
    rw [if_neg (by decide), hq]
    norm_num

/-!
## C3 — exhausting submission retries
-/

/-- C3, as stated, is false for the sell side: when all 3 `sell_limit`
attempts fail, `sell_or_else` raises `RuntimeError` (a fatal exception)
rather than returning a failure result. -/
theorem c3_counterexample :
    (sell_or_else (fun _ => false) (fun _ => none) 3).fatal =
      some "Error: Sell order max API retry limit reached." := by
  rfl

/-- C3 (amended): if all 3 submission attempts fail, `buy_or_else` returns
the failure response (success false, empty result, no exception, no
exchange follow-up such as cancellation), and an order whose status was
UNEXECUTED stays UNEXECUTED; `sell_or_else`, by contrast, raises a fatal
`RuntimeError`. -/
theorem c3_submission_exhausted (orderOk : ℕ → Option OrderData)
    (cancelOk : ℕ → Bool) (o : BittrexOrder)
    (h : o.status = OrderStatus.UNEXECUTED) :
    buy_or_else (fun _ => false) orderOk cancelOk 3 =
      { fatal := none, success := false, result := none, polled := none,
        cancelCalls := 0 } ∧
    (record_submission o (buy_or_else (fun _ => false) orderOk cancelOk 3)).status =
      OrderStatus.UNEXECUTED ∧
    (sell_or_else (fun _ => false) orderOk 3).fatal ≠ none := by
  have hb : buy_or_else (fun _ => false) orderOk cancelOk 3 =
      { fatal := none, success := false, result := none, polled := none,
        cancelCalls := 0 } := rfl
  refine ⟨hb, ?_, ?_⟩
  · rw [hb]
    simp [record_submission, h]
  · show (sellAttempts (fun _ => false) orderOk 3 (List.range 3)).fatal ≠ none
    simp [sellAttempts, List.range_succ]

/-- Witness for C3: the amended theorem at concrete oracles and an order in
its initial state. -/
theorem c3_witness :
    buy_or_else (fun _ => false) (fun _ => none) (fun _ => false) 3 =
      { fatal := none, success := false, result := none, polled := none,
        cancelCalls := 0 } ∧
    (record_submission {} (buy_or_else (fun _ => false) (fun _ => none)
        (fun _ => false) 3)).status = OrderStatus.UNEXECUTED ∧
    (sell_or_else (fun _ => false) (fun _ => none) 3).fatal ≠ none :=
  c3_submission_exhausted (fun _ => none) (fun _ => false) {} rfl

/-!
## C4 — cancellation policy of `buy_or_else`
-/

theorem cancelLoop_calls_le (cancelOk : ℕ → Bool) (retry : ℕ) (l : List ℕ) :
    (cancelLoop cancelOk retry l).2.2 ≤ l.length := by
  induction l with
  | nil => simp [cancelLoop]
  | cons kk rest ih =>
    simp only [cancelLoop, List.length_cons]
    split_ifs
    · simp
    · simp
    · simpa using Nat.succ_le_succ ih

theorem cancelLoop_calls_pos (cancelOk : ℕ → Bool) (retry : ℕ) (kk : ℕ)
    (rest : List ℕ) :
    0 < (cancelLoop cancelOk retry (kk :: rest)).2.2 := by
  simp only [cancelLoop]
  split_ifs <;> simp

theorem orderLoopBuy_cancel_spec (orderOk : ℕ → Option OrderData)
    (cancelOk : ℕ → Bool) (retry : ℕ) (hr : 0 < retry) (l : List ℕ) :
    (∀ od, (orderLoopBuy orderOk cancelOk retry l).polled = some od →
      (0 < (orderLoopBuy orderOk cancelOk retry l).cancelCalls ↔
        0 < od.QuantityRemaining)) ∧
    (orderLoopBuy orderOk cancelOk retry l).cancelCalls ≤ retry := by
  induction l with
  | nil => simp [orderLoopBuy]
  | cons jj rest ih =>
    simp only [orderLoopBuy]
    cases horder : orderOk jj with
    | some od =>
      dsimp only
      by_cases hrem : 0 < od.QuantityRemaining
      · rw [if_pos hrem]
        constructor
        · intro od' hod'
          obtain rfl : od = od' := by simpa using hod'
          constructor
          · intro _; exact hrem
          · intro _
            obtain ⟨k, l', hl⟩ : ∃ k l', List.range retry = k :: l' := by
              cases hre : List.range retry with
              | nil => exfalso; have := List.range_eq_nil.mp hre; omega
              | cons k l' => exact ⟨k, l', rfl⟩
            simpa [hl] using cancelLoop_calls_pos cancelOk retry k l'
        · calc (cancelLoop cancelOk retry (List.range retry)).2.2
              ≤ (List.range retry).length := cancelLoop_calls_le cancelOk retry _
            _ = retry := List.length_range retry
      · rw [if_neg hrem]
        constructor
        · intro od' hod'
          obtain rfl : od = od' := by simpa using hod'
          simp [hrem]
        · simp
    | none =>
      dsimp only
      split_ifs
      · simp
      · exact ih

theorem buyAttempts_cancel_spec (submitOk : ℕ → Bool)
    (orderOk : ℕ → Option OrderData) (cancelOk : ℕ → Bool) (retry : ℕ)
    (hr : 0 < retry) (l : List ℕ) :
    (∀ od, (buyAttempts submitOk orderOk cancelOk retry l).polled = some od →
      (0 < (buyAttempts submitOk orderOk cancelOk retry l).cancelCalls ↔
        0 < od.QuantityRemaining)) ∧
    (buyAttempts submitOk orderOk cancelOk retry l).cancelCalls ≤ retry := by
  induction l with
  | nil => simp [buyAttempts]
  | cons ii rest ih =>
    simp only [buyAttempts]
    split_ifs
    · exact orderLoopBuy_cancel_spec orderOk cancelOk retry hr (List.range retry)
    · exact ih

/-- C4: over every behaviour of the exchange oracles, whenever
`buy_or_else` reaches a successful status poll reporting order data `od`,
cancel calls are issued iff `od.QuantityRemaining > 0`, and the single
cancellation attempt sequence issues at most `R = 3` cancel calls. -/
theorem c4_cancel_iff_unfilled (submitOk : ℕ → Bool)
    (orderOk : ℕ → Option OrderData) (cancelOk : ℕ → Bool) :
    (∀ od, (buy_or_else submitOk orderOk cancelOk 3).polled = some od →
      (0 < (buy_or_else submitOk orderOk cancelOk 3).cancelCalls ↔
        0 < od.QuantityRemaining)) ∧
    (buy_or_else submitOk orderOk cancelOk 3).cancelCalls ≤ 3 :=
  buyAttempts_cancel_spec submitOk orderOk cancelOk 3 (by norm_num) (List.range 3)

/-- Witness for C4: a run whose first poll reports 1 unit remaining out
of 2 issues a cancellation (here exactly one cancel call), and a run whose
poll reports nothing remaining issues none. -/
theorem c4_witness :
    (0 < (buy_or_else (fun _ => true) (fun _ => some { Quantity := 2, QuantityRemaining := 1 })
        (fun _ => true) 3).cancelCalls ↔ 0 < ({ Quantity := 2, QuantityRemaining := 1 } : OrderData).QuantityRemaining) ∧
    (0 < (buy_or_else (fun _ => true) (fun _ => some { Quantity := 2, QuantityRemaining := 0 })
        (fun _ => true) 3).cancelCalls ↔ 0 < ({ Quantity := 2, QuantityRemaining := 0 } : OrderData).QuantityRemaining) :=
  ⟨(c4_cancel_iff_unfilled (fun _ => true)
      (fun _ => some { Quantity := 2, QuantityRemaining := 1 }) (fun _ => true)).1
      { Quantity := 2, QuantityRemaining := 1 } rfl,
   (c4_cancel_iff_unfilled (fun _ => true)
      (fun _ => some { Quantity := 2, QuantityRemaining := 0 }) (fun _ => true)).1
      { Quantity := 2, QuantityRemaining := 0 } rfl⟩

/-!
## C5 — merge idempotence of the working window
-/

theorem mergeStep_head (w p w' : List TradeEntry)
    (h : mergeStep w p = some w') :
    ∃ ph wh, p.head? = some ph ∧ w'.head? = some wh ∧ wh.Id = ph.Id := by
  unfold mergeStep at h
  cases hw : w.head? with
  | none => rw [hw] at h; simp at h
  | some first =>
    rw [hw] at h
    dsimp only at h
    cases p with
    | nil => simp at h
    | cons ph rest =>
      rw [List.findIdx?_cons] at h
      by_cases hid : ph.Id = first.Id
      · rw [if_pos (by simpa using hid)] at h
        dsimp only at h
        rw [List.take_zero, List.nil_append] at h
        obtain rfl : w = w' := Option.some.inj h
        exact ⟨ph, first, rfl, hw, hid.symm⟩
      · rw [if_neg (by simpa using hid), List.findIdx?_succ] at h
        cases hfi : List.findIdx? (fun x => decide (x.Id = first.Id)) rest with
        | none => rw [hfi] at h; simp at h
        | some j =>
          rw [hfi] at h
          dsimp only [Option.map] at h
          obtain rfl : List.take (j + 1) (ph :: rest) ++ w = w' := Option.some.inj h
          exact ⟨ph, ph, rfl, by simp [List.take_succ_cons], rfl⟩

theorem mergeStep_self (w p : List TradeEntry) (ph wh : TradeEntry)
    (hp : p.head? = some ph) (hw : w.head? = some wh) (hid : wh.Id = ph.Id) :
    mergeStep w p = some w := by
  unfold mergeStep
  rw [hw]
  dsimp only
  cases p with
  | nil => simp at hp
  | cons ph' rest =>
    obtain rfl : ph' = ph := by simpa using hp
    rw [List.findIdx?_cons, if_pos (by simpa using hid.symm)]
    dsimp only
    rw [List.take_zero, List.nil_append]

/-- C5: if the working window is the result of merging the fetched page
(so the page is unchanged since the previous merge), has no duplicate
identifiers and is ordered newest-first, then merging the same page again
adds no entries, and after any number of repeated merges of that page the
window is unchanged — still duplicate-free and ordered newest-first. -/
theorem c5_merge_idempotent (w0 page working : List TradeEntry) (n : ℕ)
    (hprev : mergeStep w0 page = some working)
    (hnodup : (working.map (·.Id)).Nodup)
    (hsorted : working.Pairwise (fun a b => b.Id < a.Id)) :
    mergeStep working page = some working ∧
    repeatMerge page n working = some working ∧
    (working.map (·.Id)).Nodup ∧
    working.Pairwise (fun a b => b.Id < a.Id) := by
  obtain ⟨ph, wh, hp, hw, hid⟩ := mergeStep_head w0 page working hprev
  have hself := mergeStep_self working page ph wh hp hw hid
  refine ⟨hself, ?_, hnodup, hsorted⟩
  induction n with
  | zero => rfl
  | succ n ih => simp only [repeatMerge, hself, ih]

/-- Witness for C5: page `[id 2, id 1]` merged into the window `[id 1]`
gives `[id 2, id 1]`; re-merging the same page any number of times (here 5)
leaves it unchanged. -/
theorem c5_witness :
    mergeStep [{ Id := 2, TimeStamp := 2, OrderType := "BUY", Price := 1, Total := 1 },
               { Id := 1, TimeStamp := 1, OrderType := "SELL", Price := 1, Total := 1 }]
      [{ Id := 2, TimeStamp := 2, OrderType := "BUY", Price := 1, Total := 1 },
       { Id := 1, TimeStamp := 1, OrderType := "SELL", Price := 1, Total := 1 }] =
      some [{ Id := 2, TimeStamp := 2, OrderType := "BUY", Price := 1, Total := 1 },
            { Id := 1, TimeStamp := 1, OrderType := "SELL", Price := 1, Total := 1 }] ∧
    repeatMerge
      [{ Id := 2, TimeStamp := 2, OrderType := "BUY", Price := 1, Total := 1 },
       { Id := 1, TimeStamp := 1, OrderType := "SELL", Price := 1, Total := 1 }] 5
      [{ Id := 2, TimeStamp := 2, OrderType := "BUY", Price := 1, Total := 1 },
       { Id := 1, TimeStamp := 1, OrderType := "SELL", Price := 1, Total := 1 }] =
      some [{ Id := 2, TimeStamp := 2, OrderType := "BUY", Price := 1, Total := 1 },
            { Id := 1, TimeStamp := 1, OrderType := "SELL", Price := 1, Total := 1 }] := by
  have h := c5_merge_idempotent
    [{ Id := 1, TimeStamp := 1, OrderType := "SELL", Price := 1, Total := 1 }]
    [{ Id := 2, TimeStamp := 2, OrderType := "BUY", Price := 1, Total := 1 },
     { Id := 1, TimeStamp := 1, OrderType := "SELL", Price := 1, Total := 1 }]
    [{ Id := 2, TimeStamp := 2, OrderType := "BUY", Price := 1, Total := 1 },
     { Id := 1, TimeStamp := 1, OrderType := "SELL", Price := 1, Total := 1 }]
    5 rfl (by simp) (by simp)
  exact ⟨h.1, h.2.1⟩

/-!
## C6 / C7 — interval metrics
-/

/-- C6: on the three-entry tape (100, 1, BUY), (102, 2, SELL), (98, 1, BUY)
the metrics are volume 4, 2 buys, 1 sell, mean price 100 and
volume-weighted price 100.50 (= 201/2), quantized to 8 digits. -/
theorem c6_metrics_on_known_tape :
    calculate_metrics
      [{ Id := 1, TimeStamp := 0, OrderType := "BUY", Price := 100, Total := 1 },
       { Id := 2, TimeStamp := 0, OrderType := "SELL", Price := 102, Total := 2 },
       { Id := 3, TimeStamp := 0, OrderType := "BUY", Price := 98, Total := 1 }] 0 =
      Except.ok { volume := 4, buy_order := 2, sell_order := 1, price := 100,
                  price_volume_weighted := 201/2, time := 0 } := by
  have q100 : quantize8 (100 : ℚ) = 100 := by
    rw [quantize8_eq 100 10000000000 (by norm_num)]; norm_num
  have q102 : quantize8 (102 : ℚ) = 102 := by
    rw [quantize8_eq 102 10200000000 (by norm_num)]; norm_num
  have q98 : quantize8 (98 : ℚ) = 98 := by
    rw [quantize8_eq 98 9800000000 (by norm_num)]; norm_num
  have qva : quantize8 ((201 : ℚ)/2) = 201/2 := by
    rw [quantize8_eq (201/2) 10050000000 (by norm_num)]; norm_num
  have hf : (List.filter (fun x => decide (x = "BUY")) ["SELL", "BUY"]).length = 1 := by
    decide
  norm_num [calculate_metrics, divD, q100, q102, q98, qva, hf]

/-- C7: the empty entry list yields all-zero volume, counts and price
fields, and no division is performed (the result is `ok`, not a raised
division error). -/
theorem c7_empty_interval (start : ℤ) :
    calculate_metrics [] start =
      Except.ok { volume := 0, buy_order := 0, sell_order := 0, price := 0,
                  price_volume_weighted := 0, time := start } := rfl

/-!
## C8 — stale-interval branch of the polling loop
-/

theorem calc_entry100 :
    calculate_metrics
      [{ Id := 1, TimeStamp := 30, OrderType := "BUY", Price := 100, Total := 5 }] 0 =
      Except.ok { volume := 5, buy_order := 1, sell_order := 0, price := 100,
                  price_volume_weighted := 100, time := 0 } := by
  have q100 : quantize8 (100 : ℚ) = 100 := by
    rw [quantize8_eq 100 10000000000 (by norm_num)]; norm_num
  norm_num [calculate_metrics, divD, q100]

/-- C8 (amended): on a merge-success poll cycle where the newest held entry
has not crossed the interval boundary, with the stale counter past the
threshold (`constant > 2`) the emitted row takes volume, buy/sell counts
and time from the entries currently inside the open interval (zero only
when none arrived) while price and VWAP are carried from the prior
emission, and the counter is not reset; otherwise the counter is
incremented and the prior emission's metrics row is persisted again that
cycle (`db.insert_query` runs every iteration). -/
theorem c8_stale_and_increment (st : LoopState) (page : List TradeEntry)
    (interval : ℤ) (first newest : TradeEntry) (index : ℕ) (nm : Metrics)
    (hfirst : st.working.head? = some first)
    (hidx : page.findIdx? (fun x => decide (x.Id = first.Id)) = some index)
    (hnewest : (page.take index ++ st.working).head? = some newest)
    (hstale : ¬ interval < newest.TimeStamp - st.current)
    (hcalc : calculate_metrics
        (pySlice (page.take index ++ st.working)
          (get_interval_index (page.take index ++ st.working) st.current interval).1
          (get_interval_index (page.take index ++ st.working) st.current interval).2)
        st.current = Except.ok nm) :
    loopStep st page interval =
      if 2 < st.constant then
        some ({ working := (page.take index ++ st.working).take
                  (get_interval_index (page.take index ++ st.working) st.current interval).1,
                current := st.current + interval, constant := st.constant,
                metrics := { volume := nm.volume, buy_order := nm.buy_order,
                             sell_order := nm.sell_order, price := st.metrics.price,
                             price_volume_weighted := st.metrics.price_volume_weighted,
                             time := nm.time } },
              { volume := nm.volume, buy_order := nm.buy_order,
                sell_order := nm.sell_order, price := st.metrics.price,
                price_volume_weighted := st.metrics.price_volume_weighted,
                time := nm.time })
      else
        some ({ st with working := page.take index ++ st.working,
                        constant := st.constant + 1 }, st.metrics) := by
  unfold loopStep
  rw [hfirst]
  dsimp only
  rw [hidx]
  dsimp only
  rw [hnewest]
  dsimp only
  rw [if_neg hstale]
  split_ifs with hc
  · rw [hcalc]
  · rfl

/-- C8, as stated, is false on both sides: with an entry of quantity 5
inside the still-open interval, the stale-counter branch emits a row with
volume 5 and buy count 1 (not a zero-activity row), and the
increment branch still persists the prior metrics row (`m0`) rather than
persisting nothing. -/
theorem c8_counterexample :
    loopStep staleState [e1] 60 =
      some ({ working := [], current := 60, constant := 3,
              metrics := { volume := 5, buy_order := 1, sell_order := 0,
                           price := 100, price_volume_weighted := 100, time := 0 } },
            { volume := 5, buy_order := 1, sell_order := 0, price := 100,
              price_volume_weighted := 100, time := 0 }) ∧
    (5 : ℚ) ≠ 0 ∧
    loopStep freshState [e1] 60 =
      some ({ working := [e1], current := 0, constant := 1, metrics := m0 }, m0) := by
  refine ⟨?_, by norm_num, ?_⟩
  · have h := c8_stale_and_increment staleState [e1] 60 e1 e1 0
      { volume := 5, buy_order := 1, sell_order := 0, price := 100,
        price_volume_weighted := 100, time := 0 }
      rfl rfl rfl (by norm_num [e1, staleState])
      (by simp only [staleState, e1, get_interval_index, pySlice]
          norm_num
          exact calc_entry100)
    rw [h]
    norm_num [staleState, e1, m0, get_interval_index]
  · have h := c8_stale_and_increment freshState [e1] 60 e1 e1 0
      { volume := 5, buy_order := 1, sell_order := 0, price := 100,
        price_volume_weighted := 100, time := 0 }
      rfl rfl rfl (by norm_num [e1, freshState])
      (by simp only [freshState, e1, get_interval_index, pySlice]
          norm_num
          exact calc_entry100)
    rw [h]
    norm_num [freshState, e1]

/-- Witness for C8: the amended theorem applied with the stale counter
at 5, showing the forced emission with carried-over price fields. -/
theorem c8_witness :
    loopStep { working := [e1], current := 0, constant := 5, metrics := m0 } [e1] 60 =
      some ({ working := [], current := 60, constant := 5,
              metrics := { volume := 5, buy_order := 1, sell_order := 0,
                           price := 100, price_volume_weighted := 100, time := 0 } },
            { volume := 5, buy_order := 1, sell_order := 0, price := 100,
              price_volume_weighted := 100, time := 0 }) := by
  have h := c8_stale_and_increment
      { working := [e1], current := 0, constant := 5, metrics := m0 } [e1] 60 e1 e1 0
      { volume := 5, buy_order := 1, sell_order := 0, price := 100,
        price_volume_weighted := 100, time := 0 }
      rfl rfl rfl (by norm_num [e1])
      (by simp only [e1, get_interval_index, pySlice]
          norm_num
          exact calc_entry100)
  rw [h]
  norm_num [e1, m0, get_interval_index]

/-!
## C9 / C10 — manager preconditions and the submitted sell quantity
-/

/-- C9, as stated, is false: even when the wallet's BTC balance (0) is
below the order's base quantity (1), `buy_above_bid` has already issued a
`get_ticker` exchange call before the balance check, so the skip does not
happen "without contacting the exchange". -/
theorem c9_counterexample :
    (buy_above_bid "BTC-CLUB" { base_quantity := 1 } zeroWallet
        (some { Bid := 1, Ask := 1 }) none 5).2.2 =
      [ApiCall.getTicker "BTC-CLUB"] ∧
    [ApiCall.getTicker "BTC-CLUB"] ≠ ([] : List ApiCall) := by
  constructor
  · simp only [buy_above_bid]
    rw [if_pos (by norm_num [Wallet.get_quantity, zeroWallet])]
  · simp

/-- C9 (amended): when the wallet's BTC balance is strictly below the
order's base quantity, `buy_above_bid` returns the skip outcome `false`,
leaves the order status untouched (only the target price was updated), and
issues no order submission — the only exchange call in the trace is the
earlier ticker fetch. -/
theorem c9_insufficient_balance_skips (market : String) (order : BittrexOrder)
    (wallet : Wallet) (t : Ticker) (limitResp : Option LimitResponse)
    (percent : ℚ) (h : wallet.get_quantity "BTC" < order.base_quantity) :
    buy_above_bid market order wallet (some t) limitResp percent =
      (false, { order with target_price := buyPrice t.Bid t.Ask percent },
       [ApiCall.getTicker market]) := by
  simp only [buy_above_bid]
  rw [if_pos (by simpa using h)]

/-- Witness for C9: the amended theorem at a zero wallet and an order with
base quantity 1. -/
theorem c9_witness :
    buy_above_bid "BTC-CLUB" { base_quantity := 1 } zeroWallet
        (some { Bid := 1, Ask := 2 }) none 5 =
      (false, { ({ base_quantity := 1 } : BittrexOrder) with
                  target_price := buyPrice 1 2 5 },
       [ApiCall.getTicker "BTC-CLUB"]) :=
  c9_insufficient_balance_skips "BTC-CLUB" { base_quantity := 1 } zeroWallet
    { Bid := 1, Ask := 2 } none 5 (by norm_num [Wallet.get_quantity, zeroWallet])

/-- C10: whenever the ticker fetch succeeds and the wallet holds a positive
balance for the market, the quantity submitted with the sell limit order by
`sell_below_ask` is the wallet's entire balance for that market,
independent of the order's `target_quantity`. -/
theorem c10_sell_submits_wallet_balance (market : String) (order : BittrexOrder)
    (wallet : Wallet) (t : Ticker) (limitResp : Option LimitResponse)
    (percent : ℚ) (h : 0 < wallet.get_quantity market) :
    (sell_below_ask market order wallet (some t) limitResp percent).2.2 =
      [ApiCall.getTicker market,
       ApiCall.sellLimit market (wallet.get_quantity market)
         (sellPrice t.Bid t.Ask percent)] := by
  simp only [sell_below_ask]
  rw [if_neg (by simpa using ne_of_gt h)]
  cases limitResp with
  | none => rfl
  | some resp =>
    dsimp only
    split_ifs <;> rfl

/-- Witness for C10: a wallet holding 7 units of the market sells 7,
although the order's target quantity is 3. -/
theorem c10_witness :
    (sell_below_ask "BTC-CLUB" { target_quantity := 3 }
        (fun m => if m = "BTC-CLUB" then 7 else 0)
        (some { Bid := 1, Ask := 2 }) (some { success := true, uuid := "u2" }) 5).2.2 =
      [ApiCall.getTicker "BTC-CLUB",
       ApiCall.sellLimit "BTC-CLUB"
         (Wallet.get_quantity (fun m => if m = "BTC-CLUB" then (7 : ℚ) else 0) "BTC-CLUB")
         (sellPrice 1 2 5)] :=
  c10_sell_submits_wallet_balance "BTC-CLUB" { target_quantity := 3 }
    (fun m => if m = "BTC-CLUB" then 7 else 0) { Bid := 1, Ask := 2 }
    (some { success := true, uuid := "u2" }) 5
    (by norm_num [Wallet.get_quantity])

/-- Witness for C7: the empty-interval result at interval start 0. -/
theorem c7_witness :
    calculate_metrics [] 0 =
      Except.ok { volume := 0, buy_order := 0, sell_order := 0, price := 0,
                  price_volume_weighted := 0, time := 0 } :=
  c7_empty_interval 0
